import Mathlib

/-!
Shallow embedding of the html2md-mcp pipeline (src/html2md/{server,converter,
sections,cache,utils}.py) and proofs about the frozen claims.

Python strings are modelled as Lean `String`/`List Char`; Python `dict` as an
association list; `time.time()` as an explicit integer clock passed to each
cache operation; Python floats as rationals (all values appearing in the
claims are exactly representable).
-/

namespace Html2md

/-- Python ASCII whitespace, the characters matched by `str.strip()` and by
the regex class `\s` on the inputs this program handles. -/
def pyIsSpace (c : Char) : Bool :=
  c = ' ' || c = '\t' || c = '\n' || c = '\r' || c = '\x0b' || c = '\x0c'

/-- `str.strip()` on a list of characters. -/
def stripChars (s : List Char) : List Char :=
  ((s.dropWhile pyIsSpace).reverse.dropWhile pyIsSpace).reverse

/-- `str.strip()`. -/
def pyStrip (s : String) : String :=
  String.mk (stripChars s.data)

/-- `str.lower()` (ASCII case folding, which covers every input in scope). -/
def pyLower (s : String) : String :=
  String.mk (s.data.map Char.toLower)

/-- Python's `needle in hay` substring test on character lists. -/
def containsSub (needle : List Char) : List Char → Bool
  | [] => needle.isEmpty
  | c :: rest => needle.isPrefixOf (c :: rest) || containsSub needle rest

/-- Python's `needle in hay` substring test on strings. -/
def strIn (needle hay : String) : Bool :=
  containsSub needle.data hay.data

/-- Python `str(bool)`: how a boolean renders inside an f-string. -/
def pyBoolStr (b : Bool) : String :=
  if b then "True" else "False"

/-! ### DOM model

`clean_html` (converter.py) and `extract_section_from_html` (sections.py)
operate on the parsed document tree, so we model parsed HTML as a rose tree
of elements and text nodes.  A document is a list of top-level nodes. -/

/-- A parsed DOM node: an element with a tag name and children, or text. -/
inductive Node : Type where
  | elem (tag : String) (children : List Node) : Node
  | text (s : String) : Node

/-- The tag of an element node (text nodes have no tag). -/
def nodeTag : Node → Option String
  | Node.elem t _ => some t
  | Node.text _ => none

/-- The tag names removed by `clean_html` (converter.py line 141). -/
def unwantedTags : List String :=
  ["script", "style", "nav", "footer", "header", "aside"]

/-- `clean_html` (converter.py lines 119-151) on the parsed tree: every
element whose tag is in `unwantedTags` is decomposed together with its whole
subtree; everything else is kept in place. -/
def cleanNodes : List Node → List Node
  | [] => []
  | Node.elem t cs :: rest =>
      if t ∈ unwantedTags then cleanNodes rest
      else Node.elem t (cleanNodes cs) :: cleanNodes rest
  | Node.text s :: rest => Node.text s :: cleanNodes rest

/-- The document-order (preorder) sequence of element tag names. -/
def tagSeq : List Node → List String
  | [] => []
  | Node.elem t cs :: rest => t :: (tagSeq cs ++ tagSeq rest)
  | Node.text _ :: rest => tagSeq rest

/-- The document-order sequence of tags of those elements that survive
`clean_html`: elements that are not themselves unwanted and have no unwanted
ancestor.  Stated independently of `cleanNodes` so that the C3 theorem
relates the cleaner's output to a description of the input. -/
def keptTagSeq : List Node → List String
  | [] => []
  | Node.elem t cs :: rest =>
      if t ∈ unwantedTags then keptTagSeq rest
      else t :: (keptTagSeq cs ++ keptTagSeq rest)
  | Node.text _ :: rest => keptTagSeq rest

/-! ### cache.py

`SimpleCache` wraps a Python dict mapping keys to `(timestamp, value)`
pairs.  The dict is modelled as an association list with Python's dict
semantics (assignment updates in place, or appends for a fresh key);
`time.time()` is modelled by an integer clock passed explicitly. -/

/-- Python `key in dict` / `dict[key]` lookup. -/
def dictLookup {α : Type} (k : String) : List (String × α) → Option α
  | [] => none
  | (k2, v) :: rest => if k2 = k then some v else dictLookup k rest

/-- Python `dict[key] = value`: replace in place, else append. -/
def dictSet {α : Type} (k : String) (v : α) : List (String × α) → List (String × α)
  | [] => [(k, v)]
  | (k2, v2) :: rest =>
      if k2 = k then (k, v) :: rest else (k2, v2) :: dictSet k v rest

/-- Python `del dict[key]`. -/
def dictDel {α : Type} (k : String) : List (String × α) → List (String × α)
  | [] => []
  | (k2, v2) :: rest => if k2 = k then rest else (k2, v2) :: dictDel k rest

/-- `SimpleCache` (cache.py lines 10-105): `_cache` dict plus `_ttl`. -/
structure SimpleCache (α : Type) : Type where
  store : List (String × (Int × α))
  ttl : Int

/-- `SimpleCache.__init__` (cache.py lines 18-27). -/
def SimpleCache.init (α : Type) (ttl : Int) : SimpleCache α :=
  { store := [], ttl := ttl }

/-- `SimpleCache.get` (cache.py lines 29-52) at clock time `now`: a hit
returns the stored value; an entry whose age exceeds `_ttl` is deleted and
reported as a miss.  Returns the result together with the updated cache. -/
def SimpleCache.get {α : Type} (c : SimpleCache α) (now : Int) (key : String) :
    Option α × SimpleCache α :=
  match dictLookup key c.store with
  | none => (none, c)
  | some (timestamp, value) =>
      if now - timestamp > c.ttl then
        (none, { c with store := dictDel key c.store })
      else
        (some value, c)

/-- `SimpleCache.set` (cache.py lines 54-63) at clock time `now`. -/
def SimpleCache.set {α : Type} (c : SimpleCache α) (now : Int) (key : String)
    (value : α) : SimpleCache α :=
  { c with store := dictSet key (now, value) c.store }

/-- `get_cache` (cache.py lines 112-125): the module-level `_global_cache`
is created on first use with the ttl of that first call and returned as-is
afterwards.  The global is passed and returned explicitly. -/
def get_cache {α : Type} (ttl : Int) (globalCache : Option (SimpleCache α)) :
    SimpleCache α × Option (SimpleCache α) :=
  match globalCache with
  | none =>
      let c := SimpleCache.init α ttl
      (c, some c)
  | some c => (c, some c)

/-! ### utils.py and the cache fingerprint -/

/-- The string hashed by `calculate_hash` for the cache key (converter.py
line 245): the f-string interpolating the url and the three content
toggles, with Python's `True`/`False` rendering. -/
def cacheKeyInput (url : String) (include_images include_tables include_links : Bool) :
    String :=
  url ++ "|" ++ pyBoolStr include_images ++ "|" ++ pyBoolStr include_tables ++
    "|" ++ pyBoolStr include_links

/-- `format_bytes` (utils.py lines 38-53): one decimal place. -/
def formatFixed1 (q : ℚ) : String :=
  let n : Int := ⌊q * 10 + 1 / 2⌋
  toString (n / 10) ++ "." ++ toString (n % 10)

/-- Python `f"\x7bx:.2f\x7d"` on a nonnegative value exactly representable
at two decimal places (every value reached in the claims is). -/
def formatFixed2 (q : ℚ) : String :=
  let n : Int := ⌊q * 100 + 1 / 2⌋
  toString (n / 100) ++ "." ++
    (if n % 100 < 10 then "0" ++ toString (n % 100) else toString (n % 100))

/-- The unit loop shared by `format_bytes` (utils.py) and `format_size`
(sections.py): repeatedly divide by 1024.0 while walking the unit list,
falling through to TB. -/
def formatUnitLoop (render : ℚ → String) : List String → ℚ → String
  | [], q => render q ++ " TB"
  | u :: us, q =>
      if q < 1024 then render q ++ " " ++ u
      else formatUnitLoop render us (q / 1024)

/-- `format_bytes` (utils.py lines 38-53). -/
def format_bytes (size : Int) : String :=
  formatUnitLoop formatFixed1 ["B", "KB", "MB", "GB"] (size : ℚ)

/-- `format_size` (sections.py lines 290-304). -/
def format_size (size_bytes : Int) : String :=
  formatUnitLoop formatFixed2 ["B", "KB", "MB", "GB"] (size_bytes : ℚ)

/-! ### sections.py: Markdown section extraction -/

/-- Python `markdown.split("\n")` on characters. -/
def splitLines : List Char → List (List Char)
  | [] => [[]]
  | c :: rest =>
      if c = '\n' then [] :: splitLines rest
      else
        match splitLines rest with
        | [] => [[c]]
        | l :: ls => (c :: l) :: ls

/-- Python `"\n".join(lines)` on characters. -/
def joinLines : List (List Char) → List Char
  | [] => []
  | [l] => l
  | l :: ls => l ++ '\n' :: joinLines ls

/-- `stripped.startswith("#")`. -/
def startsWithHash : List Char → Bool
  | '#' :: _ => true
  | _ => false

/-- `re.match(r"^(#+)\s+(.+)$", stripped)` (sections.py line 155): the run
of leading hashes, then at least one whitespace character, then at least
one further character (`.` does not match a newline, and lines obtained
from `split("\n")` contain none).  Returns `(len(group(1)), group(2))`.
When everything after the whitespace run is empty, the greedy `\s+`
backtracks one character so `(.+)` matches the final whitespace character,
provided the run has length at least two. -/
def headingRegexMatch (s : List Char) : Option (Nat × List Char) :=
  let hashes := s.takeWhile (fun c => c = '#')
  let rest := s.dropWhile (fun c => c = '#')
  if hashes.isEmpty then none
  else
    let ws := rest.takeWhile pyIsSpace
    let body := rest.dropWhile pyIsSpace
    if ws.isEmpty then none
    else if body.isEmpty then
      if 2 ≤ ws.length then some (hashes.length, [ws.getLastD ' ']) else none
    else some (hashes.length, body)

/-- The scanning loop of `extract_section_from_markdown` (sections.py lines
150-181), carried out line by line with the `in_section` flag, the recorded
`section_level` and the accumulated `section_lines`; reaching a heading of
equal-or-shallower level while inside the section is the `break`. -/
def extractLoop (search : List Char) :
    List (List Char) → Bool → Option Nat → List (List Char) → List (List Char)
  | [], _, _, acc => acc
  | line :: rest, inSec, secLvl, acc =>
      let stripped := stripChars line
      if startsWithHash stripped then
        match headingRegexMatch stripped with
        | none =>
            if inSec then extractLoop search rest inSec secLvl (acc ++ [line])
            else extractLoop search rest inSec secLvl acc
        | some (level, g2) =>
            let headingText := stripChars g2
            if !inSec && containsSub search (headingText.map Char.toLower) then
              extractLoop search rest true (some level) (acc ++ [line])
            else if inSec && (match secLvl with
                  | some l => decide (level ≤ l)
                  | none => false) then
              acc
            else if inSec then extractLoop search rest inSec secLvl (acc ++ [line])
            else extractLoop search rest inSec secLvl acc
      else
        if inSec then extractLoop search rest inSec secLvl (acc ++ [line])
        else extractLoop search rest inSec secLvl acc

/-- `extract_section_from_markdown` (sections.py lines 128-188).  `none`
models the `ValueError("Section not found: ...")` raised when no line was
collected. -/
def extract_section_from_markdown (markdown section_heading : String) :
    Option String :=
  let lines := splitLines markdown.data
  let search := stripChars (section_heading.data.map Char.toLower)
  let sectionLines := extractLoop search lines false none []
  if sectionLines.isEmpty then none
  else some (String.mk (joinLines sectionLines))

/-! ### sections.py: HTML heading selection -/

/-- `get_text(strip=True)` over a node list: the concatenation of the
stripped text descendants in document order. -/
def getTextChars : List Node → List Char
  | [] => []
  | Node.elem _ cs :: rest => getTextChars cs ++ getTextChars rest
  | Node.text s :: rest => stripChars s.data ++ getTextChars rest

/-- `soup.find_all(tag)`: all elements with the given tag in document
(preorder) order. -/
def findAll (tag : String) : List Node → List Node
  | [] => []
  | Node.elem t cs :: rest =>
      (if t = tag then [Node.elem t cs] else []) ++
        (findAll tag cs ++ findAll tag rest)
  | Node.text _ :: rest => findAll tag rest

/-- The heading-match test of sections.py lines 78-82:
`section_heading.strip().lower() in heading.get_text(strip=True).lower()`. -/
def matchesHeading (section_heading : String) (h : Node) : Bool :=
  containsSub ((stripChars section_heading.data).map Char.toLower)
    ((getTextChars [h]).map Char.toLower)

/-- The heading tag list of sections.py line 75. -/
def headingTagNames : List String :=
  ["h1", "h2", "h3", "h4", "h5", "h6"]

/-- The heading-search double loop of `extract_section_from_html`
(sections.py lines 73-87): for each heading level in turn, scan that
level's headings in document order and stop at the first match. -/
def findTargetHeading (doc : List Node) (section_heading : String) :
    Option Node :=
  headingTagNames.findSome?
    (fun tag => (findAll tag doc).find? (matchesHeading section_heading))

/-- All element nodes of a document in document (preorder) order. -/
def allElements : List Node → List Node
  | [] => []
  | Node.elem t cs :: rest =>
      Node.elem t cs :: (allElements cs ++ allElements rest)
  | Node.text _ :: rest => allElements rest

/-- Whether a node is a heading element (h1-h6). -/
def isHeadingElem : Node → Bool
  | Node.elem t _ => headingTagNames.contains t
  | Node.text _ => false

/-- Modelled from the claim for comparison: the first heading in document
order, among heading levels 1-6, whose text contains the target as a
case-insensitive substring. -/
def firstMatchingHeadingDocOrder (doc : List Node) (section_heading : String) :
    Option Node :=
  (allElements doc).find?
    (fun n => isHeadingElem n && matchesHeading section_heading n)

/-! ### server.py: the tool endpoint

`call_tool` (server.py lines 142-299) extracts the arguments with their
defaults, validates them, dispatches to `html_to_markdown` on a worker and
formats the outcome.  The extracted arguments are modelled as a record; the
pipeline body and the success formatter are parameters of the model, so the
theorems about validation and about the dispatch hold for every pipeline. -/

/-- The arguments `call_tool` extracts (server.py lines 161-177). -/
structure ToolArgs : Type where
  url : Option String
  include_images : Bool
  include_tables : Bool
  include_links : Bool
  timeout : Int
  max_size : Int
  use_cache : Bool
  cache_ttl : Int
  fetch_method : String
  browser_type : String
  headless : Bool
  wait_for : String
  use_user_profile : Bool
  return_summary : Bool
  max_tokens : Int
  section_id : Option String
  section_heading : Option String

/-- Python truthiness of an optional string (`if not url`,
`if section_id and section_heading`): present and non-empty. -/
def truthyOpt : Option String → Bool
  | none => false
  | some s => !s.isEmpty

/-- Outcome of running the conversion on the worker, as seen by the
`try/except` ladder of server.py lines 192-299: a result of type `ρ`, or
one of the three declared exception classes, or any other exception. -/
inductive DispatchOutcome (ρ : Type) : Type where
  | ok (result : ρ) : DispatchOutcome ρ
  | fetchErr (msg : String) : DispatchOutcome ρ
  | parseErr (msg : String) : DispatchOutcome ρ
  | convErr (msg : String) : DispatchOutcome ρ
  | otherErr (msg : String) : DispatchOutcome ρ

/-- What `call_tool` produces: a list of text contents, or a raised
`ValueError` (server.py line 158) that escapes the handler. -/
inductive CallToolResult : Type where
  | response (texts : List String) : CallToolResult
  | raisedValueError (msg : String) : CallToolResult
deriving DecidableEq

/-- `call_tool` (server.py lines 142-299).  `dispatch` is the outcome of
the `run_in_executor` call; `fmt` is the success-response formatter of
lines 220-276 (its exact text matters to none of the claims, so the model
is parametric in it). -/
def callTool {ρ : Type} (dispatch : ToolArgs → DispatchOutcome ρ)
    (fmt : ToolArgs → ρ → String) (name : String) (args : ToolArgs) :
    CallToolResult :=
  if name ≠ "html_to_markdown" then
    CallToolResult.raisedValueError ("Unknown tool: " ++ name)
  else if !truthyOpt args.url then
    CallToolResult.response ["Error: \x27url\x27 parameter is required"]
  else if truthyOpt args.section_id && truthyOpt args.section_heading then
    CallToolResult.response
      ["Error: \x27section_id\x27 and \x27section_heading\x27 are mutually exclusive. Provide only one."]
  else
    match dispatch args with
    | DispatchOutcome.ok r => CallToolResult.response [fmt args r]
    | DispatchOutcome.fetchErr m =>
        CallToolResult.response ["Error fetching URL: " ++ m]
    | DispatchOutcome.parseErr m =>
        CallToolResult.response ["Error parsing/converting content: " ++ m]
    | DispatchOutcome.convErr m =>
        CallToolResult.response ["Conversion error: " ++ m]
    | DispatchOutcome.otherErr m =>
        CallToolResult.response ["Unexpected error: " ++ m]

/-- The keyword arguments `call_tool` passes to `html_to_markdown`
(server.py lines 199-217), in call order. -/
def serverPassedKwargs : List String :=
  ["url", "include_images", "include_tables", "include_links", "timeout",
   "max_size", "use_cache", "cache_ttl", "fetch_method", "browser_type",
   "headless", "wait_for", "use_user_profile", "return_summary",
   "max_tokens", "section_id", "section_heading"]

/-- The parameters `html_to_markdown` declares (converter.py lines
194-208); the signature has no `**kwargs`. -/
def htmlToMarkdownParams : List String :=
  ["url", "include_images", "include_tables", "include_links", "timeout",
   "max_size", "use_cache", "cache_ttl", "fetch_method", "browser_type",
   "headless", "wait_for", "use_user_profile"]

/-- The keyword arguments of the call that the callee does not declare, in
call order. -/
def unexpectedKwargs : List String :=
  serverPassedKwargs.filter (fun k => !htmlToMarkdownParams.contains k)

/-- The message of the `TypeError` CPython raises for the first unexpected
keyword argument of a call. -/
def typeErrorMsg (k : String) : String :=
  "html_to_markdown() got an unexpected keyword argument \x27" ++ k ++ "\x27"

/-- The dispatch of server.py lines 197-218 under Python calling
semantics: if the call passes a keyword argument the callee does not
declare, a `TypeError` is raised before the callee body runs.  `TypeError`
is not a `ConversionError`, so it reaches the generic `except Exception`
handler; otherwise the pipeline body runs. -/
def pythonDispatch {ρ : Type} (body : ToolArgs → DispatchOutcome ρ)
    (args : ToolArgs) : DispatchOutcome ρ :=
  match unexpectedKwargs with
  | [] => body args
  | k :: _ => DispatchOutcome.otherErr (typeErrorMsg k)

/-- A conversion request: the parameters of `html_to_markdown`
(converter.py lines 194-208) with their declared types. -/
structure ConversionRequest : Type where
  url : String
  include_images : Bool
  include_tables : Bool
  include_links : Bool
  timeout : Int
  max_size : Int
  use_cache : Bool
  cache_ttl : Int
  fetch_method : String
  browser_type : String
  headless : Bool
  wait_for : String
  use_user_profile : Bool

/-- The string `html_to_markdown` feeds to `calculate_hash` for the cache
key (converter.py line 245), as a function of the whole request. -/
def cacheKeyOf (r : ConversionRequest) : String :=
  cacheKeyInput r.url r.include_images r.include_tables r.include_links

/-! ### Concrete inputs used by witnesses and counterexamples -/

/-- The default argument values `call_tool` substitutes for missing keys
(server.py lines 161-177). -/
def defaultArgs : ToolArgs :=
  { url := none
    include_images := true
    include_tables := true
    include_links := true
    timeout := 30
    max_size := 10485760
    use_cache := false
    cache_ttl := 3600
    fetch_method := "fetch"
    browser_type := "chromium"
    headless := true
    wait_for := "networkidle"
    use_user_profile := false
    return_summary := false
    max_tokens := 25000
    section_id := none
    section_heading := none }

/-- An input document with a non-unwanted element nested inside an
unwanted one: a `div` inside a `nav`. -/
def navDivDoc : List Node :=
  [Node.elem "nav" [Node.elem "div" []]]

/-- A document in which a matching `h2` precedes a matching `h1`. -/
def h2BeforeH1Doc : List Node :=
  [Node.elem "h2" [Node.text "beta target"],
   Node.elem "h1" [Node.text "alpha target"]]

/-- A request using the plain HTTP fetcher. -/
def plainFetchReq : ConversionRequest :=
  { url := "https://example.com/page"
    include_images := true
    include_tables := false
    include_links := true
    timeout := 30
    max_size := 10485760
    use_cache := true
    cache_ttl := 3600
    fetch_method := "fetch"
    browser_type := "chromium"
    headless := true
    wait_for := "networkidle"
    use_user_profile := false }

/-- The same url and content toggles fetched through the browser with
every browser option changed. -/
def browserFetchReq : ConversionRequest :=
  { url := "https://example.com/page"
    include_images := true
    include_tables := false
    include_links := true
    timeout := 60
    max_size := 10485760
    use_cache := true
    cache_ttl := 60
    fetch_method := "playwright"
    browser_type := "firefox"
    headless := false
    wait_for := "load"
    use_user_profile := true }

/-! ## Helper lemmas -/

theorem tagSeq_cleanNodes (ns : List Node) :
    tagSeq (cleanNodes ns) = keptTagSeq ns := by
  induction ns using cleanNodes.induct with
  | case1 => simp [cleanNodes, keptTagSeq, tagSeq]
  | case2 t cs rest h ih => simp [cleanNodes, keptTagSeq, tagSeq, h, ih]
  | case3 t cs rest h ih1 ih2 => simp [cleanNodes, tagSeq, keptTagSeq, h, ih1, ih2]
  | case4 s rest ih => simp [cleanNodes, tagSeq, keptTagSeq, ih]

theorem keptTagSeq_no_unwanted (ns : List Node) :
    (keptTagSeq ns).filter (fun t => decide (t ∈ unwantedTags)) = [] := by
  induction ns using keptTagSeq.induct with
  | case1 => simp [keptTagSeq]
  | case2 t cs rest h ih => simp [keptTagSeq, h, ih]
  | case3 t cs rest h ih1 ih2 => simp [keptTagSeq, h, ih1, ih2]
  | case4 s rest ih => simp [keptTagSeq, ih]

theorem findSome?_find?_flatten {α β : Type} (l : List α) (f : α → List β)
    (p : β → Bool) :
    l.findSome? (fun a => (f a).find? p) = ((l.map f).flatten).find? p := by
  induction l with
  | nil => rfl
  | cons a as ih =>
      simp only [List.findSome?, List.map, List.flatten, List.find?_append]
      cases h : (f a).find? p with
      | none => simpa [h, Option.orElse] using ih
      | some b => simp [h, Option.orElse]

theorem dictLookup_dictSet {α : Type} (k : String) (v : α)
    (l : List (String × α)) : dictLookup k (dictSet k v l) = some v := by
  induction l with
  | nil => simp [dictSet, dictLookup]
  | cons p rest ih =>
      obtain ⟨k2, v2⟩ := p
      by_cases h : k2 = k
      · subst h
        simp [dictSet, dictLookup]
      · simp [dictSet, dictLookup, h, ih]

theorem dictLookup_eq_none_of_not_mem {α : Type} (k : String)
    (l : List (String × α)) (h : k ∉ l.map Prod.fst) :
    dictLookup k l = none := by
  induction l with
  | nil => simp [dictLookup]
  | cons p rest ih =>
      obtain ⟨k2, v2⟩ := p
      simp only [List.map, List.mem_cons, not_or] at h
      simp [dictLookup, Ne.symm h.1, ih h.2]

theorem dictLookup_dictDel_of_nodup {α : Type} (k : String)
    (l : List (String × α)) (h : (l.map Prod.fst).Nodup) :
    dictLookup k (dictDel k l) = none := by
  induction l with
  | nil => simp [dictDel, dictLookup]
  | cons p rest ih =>
      obtain ⟨k2, v2⟩ := p
      simp only [List.map, List.nodup_cons] at h
      by_cases hk : k2 = k
      · subst hk
        simpa [dictDel] using dictLookup_eq_none_of_not_mem k2 rest h.1
      · simp [dictDel, dictLookup, hk, ih h.2]

theorem dictKeys_dictSet {α : Type} (k : String) (v : α)
    (l : List (String × α)) :
    (dictSet k v l).map Prod.fst =
      if k ∈ l.map Prod.fst then l.map Prod.fst
      else l.map Prod.fst ++ [k] := by
  induction l with
  | nil => simp [dictSet]
  | cons p rest ih =>
      obtain ⟨k2, v2⟩ := p
      by_cases h : k2 = k
      · subst h
        simp [dictSet]
      · simp only [dictSet, if_neg h, List.map, ih]
        by_cases hm : k ∈ rest.map Prod.fst
        · simp [hm, Ne.symm h]
        · simp [hm, Ne.symm h]

theorem dictKeys_dictSet_nodup {α : Type} (k : String) (v : α)
    (l : List (String × α)) (h : (l.map Prod.fst).Nodup) :
    ((dictSet k v l).map Prod.fst).Nodup := by
  rw [dictKeys_dictSet]
  by_cases hm : k ∈ l.map Prod.fst
  · simpa [hm] using h
  · simp [hm, List.nodup_append, h]

/-- The general form of the C1/C2 dispatch behaviour: because the server
passes four keyword arguments `html_to_markdown` does not declare, every
dispatch that passes validation raises `TypeError` for `return_summary`
and the endpoint answers with the `Unexpected error: ` text, for every
pipeline body and every success formatter. -/
theorem callTool_pythonDispatch_typeError {ρ : Type}
    (body : ToolArgs → DispatchOutcome ρ) (fmt : ToolArgs → ρ → String)
    (args : ToolArgs)
    (hurl : truthyOpt args.url = true)
    (hmux : (truthyOpt args.section_id && truthyOpt args.section_heading) = false) :
    callTool (pythonDispatch body) fmt "html_to_markdown" args =
      CallToolResult.response
        ["Unexpected error: " ++ typeErrorMsg "return_summary"] := by
  have hun : unexpectedKwargs =
      ["return_summary", "max_tokens", "section_id", "section_heading"] := by decide
  unfold callTool pythonDispatch
  rw [hun]
  simp [hurl, hmux]

/-! ## Claims -/

/-- C1: the claim fails on the code, and the code contradicts its own
declared interface.  At the failing input — a tool call with a url and
`return_summary=true` — the call the server makes passes keyword arguments
`html_to_markdown` does not declare, so the dispatch raises `TypeError`
and the endpoint answers with the `Unexpected error: ` text instead of any
summary-shaped result, for every pipeline body and formatter. -/
theorem summary_request_yields_unexpected_error {ρ : Type}
    (body : ToolArgs → DispatchOutcome ρ) (fmt : ToolArgs → ρ → String) :
    callTool (pythonDispatch body) fmt "html_to_markdown"
        { defaultArgs with
            url := some "https://example.com", return_summary := true } =
      CallToolResult.response
        ["Unexpected error: " ++ typeErrorMsg "return_summary"] :=
  callTool_pythonDispatch_typeError body fmt _ (by decide) (by decide)

/-- C2: every tool call to `html_to_markdown` with a non-empty url and not
both section selectors set reaches the dispatch, which raises `TypeError`
because the server passes `return_summary`, `max_tokens`, `section_id` and
`section_heading` while `html_to_markdown` declares none of them; the
response is therefore always the text prefixed `Unexpected error: `,
never a success or summary report (the conclusion holds for every pipeline
body and success formatter). -/
theorem dispatch_always_raises_type_error {ρ : Type}
    (body : ToolArgs → DispatchOutcome ρ) (fmt : ToolArgs → ρ → String)
    (args : ToolArgs)
    (hurl : truthyOpt args.url = true)
    (hmux : (truthyOpt args.section_id && truthyOpt args.section_heading) = false) :
    callTool (pythonDispatch body) fmt "html_to_markdown" args =
      CallToolResult.response
        ["Unexpected error: " ++ typeErrorMsg "return_summary"] :=
  callTool_pythonDispatch_typeError body fmt args hurl hmux

/-- Witness for C2 at a concrete call. -/
theorem dispatch_always_raises_type_error_witness :
    truthyOpt ({ defaultArgs with url := some "https://example.com" } : ToolArgs).url = true ∧
    (truthyOpt ({ defaultArgs with url := some "https://example.com" } : ToolArgs).section_id &&
      truthyOpt ({ defaultArgs with url := some "https://example.com" } : ToolArgs).section_heading) = false ∧
    callTool (pythonDispatch (fun _ => DispatchOutcome.ok ())) (fun _ _ => "")
        "html_to_markdown" { defaultArgs with url := some "https://example.com" } =
      CallToolResult.response
        ["Unexpected error: " ++ typeErrorMsg "return_summary"] :=
  ⟨by decide, by decide,
    dispatch_always_raises_type_error (fun _ => DispatchOutcome.ok ())
      (fun _ _ => "") _ (by decide) (by decide)⟩

/-- C3: the claim fails on the code.  `clean_html` removes the whole
subtree of each unwanted element, so a `div` nested inside a `nav` — a
non-unwanted element type — disappears from the output: on
`navDivDoc = [nav [div]]` the input has one `div` and the output none,
even though `div` is not an unwanted tag. -/
theorem clean_html_count_counterexample :
    "div" ∉ unwantedTags ∧
    (tagSeq navDivDoc).count "div" = 1 ∧
    (tagSeq (cleanNodes navDivDoc)).count "div" = 0 := by
  have e1 : tagSeq navDivDoc = ["nav", "div"] := by simp [navDivDoc, tagSeq]
  have e2 : cleanNodes navDivDoc = [] := by simp [navDivDoc, cleanNodes, unwantedTags]
  refine ⟨by decide, ?_, ?_⟩
  · rw [e1]; decide
  · rw [e2]; simp [tagSeq]

/-- C3 (amended): for any input, the output of `clean_html` contains no
script/style/nav/footer/header/aside elements, and the preorder sequence
of the remaining element tags equals the preorder sequence of those input
elements that are not unwanted and lie inside no unwanted element — so
counts and relative order are preserved exactly for the elements outside
the removed subtrees. -/
theorem clean_html_removes_unwanted_subtrees (ns : List Node) :
    (tagSeq (cleanNodes ns)).filter (fun t => decide (t ∈ unwantedTags)) = [] ∧
    tagSeq (cleanNodes ns) = keptTagSeq ns := by
  refine ⟨?_, tagSeq_cleanNodes ns⟩
  rw [tagSeq_cleanNodes ns]
  exact keptTagSeq_no_unwanted ns

/-- C4: storing a value and immediately retrieving the same key returns
the identical value, and retrieving after more than `ttl` seconds have
elapsed returns a miss while removing the entry from the store, for any
cache whose dict has (as every Python dict does) no duplicate keys and a
nonnegative ttl. -/
theorem cache_set_get_roundtrip_and_expiry {α : Type} (c : SimpleCache α)
    (k : String) (v : α) (now later : Int)
    (hnodup : (c.store.map Prod.fst).Nodup)
    (httl : 0 ≤ c.ttl) (hexp : later - now > c.ttl) :
    ((c.set now k v).get now k).1 = some v ∧
    ((c.set now k v).get later k).1 = none ∧
    dictLookup k ((c.set now k v).get later k).2.store = none := by
  have hl : dictLookup k (dictSet k (now, v) c.store) = some (now, v) :=
    dictLookup_dictSet k (now, v) c.store
  have hfresh : ¬(c.ttl < 0) := by omega
  have hlate : c.ttl < later - now := by omega
  have hdel : dictLookup k (dictDel k (dictSet k (now, v) c.store)) = none :=
    dictLookup_dictDel_of_nodup k _ (dictKeys_dictSet_nodup k (now, v) c.store hnodup)
  refine ⟨?_, ?_, ?_⟩
  · simp [SimpleCache.get, SimpleCache.set, hl, hfresh]
  · simp [SimpleCache.get, SimpleCache.set, hl, hlate]
  · simpa [SimpleCache.get, SimpleCache.set, hl, hlate] using hdel

/-- Witness for C4 at a concrete cache, key, value and clock. -/
theorem cache_set_get_roundtrip_and_expiry_witness :
    ((SimpleCache.mk ([] : List (String × Int × String)) 10).store.map Prod.fst).Nodup ∧
    (0 : Int) ≤ (SimpleCache.mk ([] : List (String × Int × String)) 10).ttl ∧
    (11 : Int) - 0 > (SimpleCache.mk ([] : List (String × Int × String)) 10).ttl ∧
    (((SimpleCache.mk ([] : List (String × Int × String)) 10).set 0 "k" "stored").get 0 "k").1 =
      some "stored" ∧
    (((SimpleCache.mk ([] : List (String × Int × String)) 10).set 0 "k" "stored").get 11 "k").1 =
      none ∧
    dictLookup "k"
        (((SimpleCache.mk ([] : List (String × Int × String)) 10).set 0 "k" "stored").get 11 "k").2.store =
      none := by
  have h := cache_set_get_roundtrip_and_expiry
    (SimpleCache.mk ([] : List (String × Int × String)) 10) "k" "stored" 0 11
    (by decide) (by decide) (by decide)
  exact ⟨by decide, by decide, by decide, h.1, h.2.1, h.2.2⟩

/-- C5: the cache fingerprint input is built only from the url and the
three content toggles, so for any two requests agreeing on those four
fields — whatever their fetch method and browser options — any
deterministic hash of it (in the code, SHA-256) is identical, and results
fetched via different methods collide in the cache. -/
theorem cache_key_ignores_fetch_options (r q : ConversionRequest)
    (hash : String → String)
    (hu : r.url = q.url) (hi : r.include_images = q.include_images)
    (ht : r.include_tables = q.include_tables)
    (hl : r.include_links = q.include_links) :
    hash (cacheKeyOf r) = hash (cacheKeyOf q) := by
  unfold cacheKeyOf cacheKeyInput
  rw [hu, hi, ht, hl]

/-- Witness for C5: a plain-fetch request and a browser request differing
in every fetch/browser option share the fingerprint. -/
theorem cache_key_ignores_fetch_options_witness :
    plainFetchReq.url = browserFetchReq.url ∧
    plainFetchReq.include_images = browserFetchReq.include_images ∧
    plainFetchReq.include_tables = browserFetchReq.include_tables ∧
    plainFetchReq.include_links = browserFetchReq.include_links ∧
    plainFetchReq.fetch_method ≠ browserFetchReq.fetch_method ∧
    (fun s => s) (cacheKeyOf plainFetchReq) = (fun s => s) (cacheKeyOf browserFetchReq) :=
  ⟨rfl, rfl, rfl, rfl, by decide,
    cache_key_ignores_fetch_options plainFetchReq browserFetchReq
      (fun s => s) rfl rfl rfl rfl⟩

/-- C6: `extract_section_from_markdown` on
`"# A\ntext1\n## B\ntext2\n# C\ntext3"` with heading `"B"` returns exactly
`"## B\ntext2"`: the matched level-2 heading line plus its content,
stopping before (and excluding) the level-1 heading `"# C"`. -/
theorem extract_section_example :
    extract_section_from_markdown "# A\ntext1\n## B\ntext2\n# C\ntext3" "B" =
      some "## B\ntext2" := by
  decide

/-- C7: the claim fails on the code.  The search loops over heading levels
in the outer loop and over the document in the inner loop, so on a document
whose matching `h2` precedes its matching `h1` the code selects the `h1`,
while the first matching heading in document order is the `h2`. -/
theorem heading_search_counterexample :
    findTargetHeading h2BeforeH1Doc "target" =
        some (Node.elem "h1" [Node.text "alpha target"]) ∧
    firstMatchingHeadingDocOrder h2BeforeH1Doc "target" =
        some (Node.elem "h2" [Node.text "beta target"]) ∧
    findTargetHeading h2BeforeH1Doc "target" ≠
        firstMatchingHeadingDocOrder h2BeforeH1Doc "target" := by
  have byLevel : headingTagNames.map (fun tag => findAll tag h2BeforeH1Doc) =
      [[Node.elem "h1" [Node.text "alpha target"]],
       [Node.elem "h2" [Node.text "beta target"]], [], [], [], []] := by
    simp [headingTagNames, findAll, h2BeforeH1Doc]
  have m1 : matchesHeading "target" (Node.elem "h1" [Node.text "alpha target"]) = true := by
    simp [matchesHeading, getTextChars]
    decide
  have m2 : matchesHeading "target" (Node.elem "h2" [Node.text "beta target"]) = true := by
    simp [matchesHeading, getTextChars]
    decide
  have sel : findTargetHeading h2BeforeH1Doc "target" =
      some (Node.elem "h1" [Node.text "alpha target"]) := by
    unfold findTargetHeading
    rw [findSome?_find?_flatten, byLevel]
    show List.find? (matchesHeading "target")
        [Node.elem "h1" [Node.text "alpha target"],
         Node.elem "h2" [Node.text "beta target"]] = _
    exact List.find?_cons_of_pos _ m1
  have ae : allElements h2BeforeH1Doc =
      [Node.elem "h2" [Node.text "beta target"],
       Node.elem "h1" [Node.text "alpha target"]] := by
    simp [allElements, h2BeforeH1Doc]
  have pa : (isHeadingElem (Node.elem "h2" [Node.text "beta target"]) &&
      matchesHeading "target" (Node.elem "h2" [Node.text "beta target"])) = true := by
    rw [m2]
    decide
  have docfirst : firstMatchingHeadingDocOrder h2BeforeH1Doc "target" =
      some (Node.elem "h2" [Node.text "beta target"]) := by
    unfold firstMatchingHeadingDocOrder
    rw [ae]
    exact List.find?_cons_of_pos _ pa
  refine ⟨sel, docfirst, ?_⟩
  rw [sel, docfirst]
  simp

/-- C7 (amended): the heading selected by `extract_section_from_html` is
the first matching heading in level-major order — all `h1` elements in
document order, then all `h2` elements, and so on — not in plain document
order; in particular a matching `h1` is selected even when a matching `h2`
precedes it. -/
theorem heading_search_level_major (doc : List Node) (target : String) :
    findTargetHeading doc target =
      ((headingTagNames.map (fun tag => findAll tag doc)).flatten).find?
        (matchesHeading target) := by
  simpa [findTargetHeading] using
    findSome?_find?_flatten headingTagNames (fun tag => findAll tag doc)
      (matchesHeading target)

/-- C8: when both section selectors are set the endpoint answers with a
usage-error text — the mutual-exclusion message, or the missing-url
message when the url is also absent — and the result is the same for
every dispatch function and formatter, so no pipeline stage (fetch,
clean, extract or cache access) is ever invoked. -/
theorem both_selectors_rejected_before_pipeline {ρ : Type}
    (dispatch : ToolArgs → DispatchOutcome ρ) (fmt : ToolArgs → ρ → String)
    (args : ToolArgs)
    (hsid : truthyOpt args.section_id = true)
    (hsh : truthyOpt args.section_heading = true) :
    callTool dispatch fmt "html_to_markdown" args =
      CallToolResult.response
        [if truthyOpt args.url then
            "Error: \x27section_id\x27 and \x27section_heading\x27 are mutually exclusive. Provide only one."
          else "Error: \x27url\x27 parameter is required"] := by
  unfold callTool
  cases hurl : truthyOpt args.url with
  | false => simp [hurl]
  | true => simp [hurl, hsid, hsh]

/-- Witness for C8 at a concrete call with both selectors set. -/
theorem both_selectors_rejected_before_pipeline_witness :
    truthyOpt ({ defaultArgs with
        url := some "https://example.com", section_id := some "PRD1480",
        section_heading := some "7.2 Frontend" } : ToolArgs).section_id = true ∧
    truthyOpt ({ defaultArgs with
        url := some "https://example.com", section_id := some "PRD1480",
        section_heading := some "7.2 Frontend" } : ToolArgs).section_heading = true ∧
    callTool (fun _ => DispatchOutcome.ok ()) (fun _ _ => "") "html_to_markdown"
        { defaultArgs with
            url := some "https://example.com", section_id := some "PRD1480",
            section_heading := some "7.2 Frontend" } =
      CallToolResult.response
        [if truthyOpt ({ defaultArgs with
              url := some "https://example.com", section_id := some "PRD1480",
              section_heading := some "7.2 Frontend" } : ToolArgs).url then
            "Error: \x27section_id\x27 and \x27section_heading\x27 are mutually exclusive. Provide only one."
          else "Error: \x27url\x27 parameter is required"] :=
  ⟨by decide, by decide,
    both_selectors_rejected_before_pipeline (fun _ => DispatchOutcome.ok ())
      (fun _ _ => "") _ (by decide) (by decide)⟩

/-- C10: `get_cache` returns the existing global instance unchanged for
every later ttl argument, and the instance created by the first call
carries that first call's ttl, so a different per-request `cache_ttl`
after the first call has no effect on expiry behaviour. -/
theorem get_cache_ttl_fixed_by_first_call {α : Type} (c : SimpleCache α)
    (t0 t1 : Int) :
    get_cache t1 (some c) = (c, some c) ∧
    (get_cache (α := α) t0 none).1.ttl = t0 ∧
    (get_cache t1 ((get_cache (α := α) t0 none).2)).1 =
      (get_cache (α := α) t0 none).1 :=
  ⟨rfl, rfl, rfl⟩

/-- C9: `format_size` renders 1536 bytes as `"1.50 KB"` and 0 bytes as
`"0.00 B"`. -/
theorem format_size_examples :
    format_size 1536 = "1.50 KB" ∧ format_size 0 = "0.00 B" := by
  constructor
  · norm_num [format_size, formatUnitLoop, formatFixed2, Int.floor_eq_iff]
    rfl
  · norm_num [format_size, formatUnitLoop, formatFixed2]
    rfl

end Html2md
